import Mathlib

/-!
Shallow embedding of the authentication core of `python_auth_with_crud`
(FastAPI + MongoDB).  Each definition mirrors one Python function of the
source; time is an explicit `Nat` parameter (seconds since epoch), the
MongoDB `users` collection is an explicit list of documents, and fallible
operations return `Except`.  Definitions come first, theorems follow.
-/

/-! # Definitions -/

/-- An HTTP error as raised via `HTTPException(status_code, detail)`. -/
structure HErr where
  status : Nat
  detail : String
deriving Repr, DecidableEq

/-- JWT-related configuration attributes that `app/auth/jwt_handler.py` reads
off the global `settings` object (`settings.jwt_secret`,
`settings.jwt_algorithm`, `settings.jwt_expire_minutes`).  Note that the
`Settings` class in `app/config.py` (modelled separately below) does not
actually define these attributes; the codec is modelled against the
attributes its own code dereferences. -/
structure JwtSettings where
  jwt_secret : String
  jwt_algorithm : String
  jwt_expire_minutes : Nat
deriving Repr, DecidableEq

/-- The claim set of a JWT as built by `create_token`: the `sub` entry of the
caller-supplied `data` dict (every call site passes `{"sub": username}`),
plus `exp`, `iat` (seconds since epoch) and the `type` discriminator. -/
structure TokenClaims where
  sub : Option String
  exp : Nat
  iat : Nat
  typ : String
deriving Repr, DecidableEq

/-- A signed JWT: its payload plus the secret/algorithm it was signed with.
`jose.jwt.decode` accepts the token exactly when the verifying secret and
algorithm match the signing ones. -/
structure Token where
  claims : TokenClaims
  sigSecret : String
  sigAlg : String
deriving Repr, DecidableEq

/-- `app/auth/jwt_handler.py`, `create_token(data, expires_minutes=None)`:
copies `data`, sets `exp = now + expires_minutes` (defaulting to
`settings.jwt_expire_minutes`), `iat = now`, `type = "access_token"`, and
signs with `settings.jwt_secret` / `settings.jwt_algorithm`.  `now` is the
current time in seconds; minutes are converted to seconds. -/
def create_token (subIn : Option String) (now : Nat) (expires_minutes : Option Nat)
    (cfg : JwtSettings) : Token :=
  { claims :=
      { sub := subIn
        exp := now + 60 * (expires_minutes.getD cfg.jwt_expire_minutes)
        iat := now
        typ := "access_token" }
    sigSecret := cfg.jwt_secret
    sigAlg := cfg.jwt_algorithm }

/-- `app/auth/jwt_handler.py`, `decode_token(token)`: `jose.jwt.decode`
verifies the signature (mismatch → `JWTError` → `None`) and the `exp` claim
(`exp < now` with zero leeway → `ExpiredSignatureError` → `None`); then the
handler itself rejects payloads whose `type` is not `"access_token"`. -/
def decode_token (tok : Token) (now : Nat) (cfg : JwtSettings) : Option TokenClaims :=
  if tok.sigSecret ≠ cfg.jwt_secret ∨ tok.sigAlg ≠ cfg.jwt_algorithm then
    none
  else if tok.claims.exp < now then
    none
  else if tok.claims.typ ≠ "access_token" then
    none
  else
    some tok.claims

/-- Modelled from the spec: `app/auth/password.py` (imported by
`app/api/auth.py` as `hash_password` / `verify_password`) is not present under
`src/`.  Per §4.1 the hasher is a salted, adaptive one-way hash: the salt is
generated per call and embedded in the output, and verification recomputes the
digest from the embedded salt.  A hash string carries the salt and the digest. -/
structure HashStr where
  salt : Nat
  digest : String
deriving Repr, DecidableEq

/-- Modelled from the spec: the deterministic digest of a (salt, plaintext)
pair.  The model realises the spec's collision-freeness ("for all p1≠p2,
verify(p1, hash(p2)) == false with overwhelming probability") exactly, via an
encoding injective in the plaintext for a fixed salt; one-wayness is a
cryptographic property outside the model. -/
def digestFn (salt : Nat) (plaintext : String) : String :=
  toString salt ++ "$" ++ plaintext

/-- Modelled from the spec: `hash_password(plaintext)` draws a fresh salt
(passed here explicitly) and returns it embedded in the hash string with the
digest. -/
def hash_password (salt : Nat) (plaintext : String) : HashStr :=
  { salt := salt, digest := digestFn salt plaintext }

/-- Modelled from the spec: `verify_password(plaintext, hash_string)`
recomputes the digest from the embedded salt and compares. -/
def verify_password (plaintext : String) (h : HashStr) : Bool :=
  digestFn h.salt plaintext == h.digest

/-- Python `str.strip()` whitespace set (ASCII part). -/
def pyIsSpace (c : Char) : Bool :=
  c = ' ' ∨ c = '\t' ∨ c = '\n' ∨ c = '\r' ∨ c = '\x0b' ∨ c = '\x0c'

/-- Python `str.strip()`: drop leading and trailing whitespace. -/
def pyStrip (s : String) : String :=
  ⟨((s.data.dropWhile pyIsSpace).reverse.dropWhile pyIsSpace).reverse⟩

/-- A character allowed by the character class `[a-zA-Z0-9_]`. -/
def wordChar (c : Char) : Bool :=
  c.isAlphanum || c = '_'

/-- Python `re.match(r'^[a-zA-Z0-9_]+$', v)` viewed as a Bool: the whole
string is one or more word characters, where Python's `$` also matches just
before a single trailing newline. -/
def reFullMatchWord (v : String) : Bool :=
  let d := if v.data.getLast? = some '\n' then v.data.dropLast else v.data
  !d.isEmpty && d.all wordChar

/-- `UserRegister.username` validation: pydantic first enforces the field
constraints `min_length=3, max_length=50` on the raw value, then runs
`validate_username`, which re-checks `len(v) < 3`, matches
`^[a-zA-Z0-9_]+$` against the raw value, and only then returns `v.strip()`. -/
def validate_username (v : String) : Except String String :=
  if v.length < 3 then
    .error "ensure this value has at least 3 characters"
  else if v.length > 50 then
    .error "ensure this value has at most 50 characters"
  else if v.length < 3 then
    .error "Username must be at least 3 characters"
  else if !reFullMatchWord v then
    .error "Username can only contain letters, numbers, and underscores"
  else
    .ok (pyStrip v)

/-- The acceptance predicate of C6 as the spec words it: trim first, then
apply the length and pattern checks to the trimmed form. -/
def specTrimmedAccepts (v : String) : Bool :=
  let t := pyStrip v
  3 ≤ t.length && t.length ≤ 50 && reFullMatchWord t

/-- A document of the `users` collection.  `is_active` and `last_login` are
optional because handlers read them with `user.get("is_active", True)` /
`user.get("last_login")`; `last_login` is `none` when stored as null. -/
structure UserRec where
  oid : String
  username : String
  password : HashStr
  created_at : Nat
  updated_at : Nat
  is_active : Option Bool
  last_login : Option Nat
  login_count : Nat
deriving Repr, DecidableEq

/-- The state of the `users` collection, in insertion order. -/
abbrev DirState := List UserRec

/-- `db.users.find_one({"username": u})`. -/
def find_by_username (db : DirState) (u : String) : Option UserRec :=
  db.find? (fun r => r.username == u)

/-- `db.users.find_one({"_id": ObjectId(i)})`. -/
def findById (db : DirState) (i : String) : Option UserRec :=
  db.find? (fun r => r.oid == i)

/-- `update_one({"_id": ...}, ...)`: rewrite the first matching document. -/
def updateFirst (p : UserRec → Bool) (f : UserRec → UserRec) : DirState → DirState
  | [] => []
  | r :: rs => if p r then f r :: rs else r :: updateFirst p f rs

/-- Modelled from the spec: the User Directory's `insert` "fails with Conflict
on duplicate username" (§6); the repository code handles the resulting
`DuplicateKeyError` but contains no index creation itself, so the uniqueness
constraint is taken from the spec's directory interface.  On success the new
document is appended. -/
def insert_one (db : DirState) (doc : UserRec) : Except Unit DirState :=
  if (db.find? (fun r => r.username == doc.username)).isSome then
    .error ()
  else
    .ok (db ++ [doc])

/-- `UserModel.create_user_document(username, hashed_password)`: a fresh
document with `username.strip()`, the hash, both timestamps at now,
`is_active: True`, `last_login: None`, `login_count: 0`.  The `_id` is
assigned by the directory at insertion and passed in here explicitly. -/
def create_user_document (username : String) (hashed : HashStr) (now : Nat)
    (newId : String) : UserRec :=
  { oid := newId
    username := pyStrip username
    password := hashed
    created_at := now
    updated_at := now
    is_active := some true
    last_login := none
    login_count := 0 }

/-- `UserModel.update_last_login(user_id)` applied to a document:
`$set {last_login: now, updated_at: now}` and `$inc {login_count: 1}`
(the source reads the clock twice in the same statement; one instant here). -/
def update_last_login (now : Nat) (r : UserRec) : UserRec :=
  { r with last_login := some now, updated_at := now, login_count := r.login_count + 1 }

/-- `bson.ObjectId(user_id)` accepts a 24-character hexadecimal string;
`UserModel.validate_object_id` returns whether that constructor succeeds. -/
def isHexChar (c : Char) : Bool :=
  c.isDigit || ('a' ≤ c && c ≤ 'f') || ('A' ≤ c && c ≤ 'F')

/-- `UserModel.validate_object_id(user_id)`. -/
def validate_object_id (s : String) : Bool :=
  s.length == 24 && s.data.all isHexChar

/-- The process environment: a partial map from variable names to values. -/
def Env := String → Option String

/-- The fields the `Settings` class defines: `mongodb_uri` (required),
`database_name` (default `"auth_crud"`), `api_timeout` (default `"30"`).
No JWT-related attribute is defined, although `app/auth/jwt_handler.py`
dereferences `settings.jwt_secret`, `settings.jwt_algorithm` and
`settings.jwt_expire_minutes`. -/
structure Settings where
  mongodb_uri : String
  database_name : String
  api_timeout : String
deriving Repr, DecidableEq

/-- `Settings._get_required_env(key)`: raises `ValueError` when the variable
is unset or empty (Python `if not value`). -/
def get_required_env (env : Env) (key : String) : Except String String :=
  match env key with
  | none => .error ("Required environment variable " ++ key ++ " is not set")
  | some v =>
    if v = "" then .error ("Required environment variable " ++ key ++ " is not set")
    else .ok v

/-- The full list of keys `Settings.__init__` passes to `_get_required_env`. -/
def requiredEnvKeys : List String := ["MONGODB_URI"]

/-- `Settings.__init__` / module-level `settings = Settings()`: the only
environment value whose absence aborts loading is `MONGODB_URI`. -/
def settingsInit (env : Env) : Except String Settings := do
  let uri ← get_required_env env "MONGODB_URI"
  pure { mongodb_uri := uri
         database_name := (env "DATABASE_NAME").getD "auth_crud"
         api_timeout := (env "API_TIMEOUT").getD "30" }

/-- An environment that sets only the database URI and no JWT secret under
any name. -/
def envMongoOnly : Env := fun k =>
  if k = "MONGODB_URI" then some "mongodb://localhost:27017" else none

/-- The public projection returned to clients (`UserOut` built via
`UserModel.user_helper`); the password hash is never part of it. -/
structure UserOut where
  id : String
  username : String
  created_at : Option Nat
  updated_at : Option Nat
  is_active : Bool
  last_login : Option Nat
deriving Repr, DecidableEq

/-- `UserModel.user_helper(user)`: project a document to the API response. -/
def user_helper (u : UserRec) : UserOut :=
  { id := u.oid
    username := u.username
    created_at := some u.created_at
    updated_at := some u.updated_at
    is_active := u.is_active.getD true
    last_login := u.last_login }

/-- `register_user(user)` from `app/api/auth.py`: check for an existing
record with the same username, hash the password, insert the new document,
re-read it and return its projection; a `DuplicateKeyError` from the insert
is mapped to the same 400 response as the existence check.  To expose the
duplicate-insert race the directory state is split into the state the
existence check reads (`sCheck`) and the state the insert runs against
(`sInsert`); a sequential execution has `sCheck = sInsert`. -/
def register_user (sCheck sInsert : DirState) (username password : String)
    (salt now : Nat) (newId : String) : Except HErr UserOut × DirState :=
  match find_by_username sCheck username with
  | some _ => (.error ⟨400, "Username already registered"⟩, sInsert)
  | none =>
    let hashed := hash_password salt password
    let doc := create_user_document username hashed now newId
    match insert_one sInsert doc with
    | .error _ => (.error ⟨400, "Username already registered"⟩, sInsert)
    | .ok s2 =>
      match findById s2 newId with
      | some created => (.ok (user_helper created), s2)
      | none => (.error ⟨500, "Internal server error"⟩, s2)

/-- The `TokenResponse` schema returned by both login endpoints. -/
structure TokenResponse where
  access_token : Token
  token_type : String
  expires_in : Nat
deriving Repr, DecidableEq

/-- `login_user(form_data)` — the form-based `/auth/login` endpoint: look the
user up (absent → 401 "Incorrect username and password"), verify the password
(mismatch → 401 "Incorrect username or password"), apply
`update_last_login`, issue a token.  There is no active-flag check on this
path. -/
def login_user (db : DirState) (username password : String) (now : Nat)
    (cfg : JwtSettings) : Except HErr TokenResponse × DirState :=
  match find_by_username db username with
  | none => (.error ⟨401, "Incorrect username and password"⟩, db)
  | some user =>
    if !(verify_password password user.password) then
      (.error ⟨401, "Incorrect username or password"⟩, db)
    else
      let db2 := updateFirst (fun r => r.oid == user.oid) (update_last_login now) db
      (.ok { access_token := create_token (some user.username) now none cfg
             token_type := "bearer"
             expires_in := cfg.jwt_expire_minutes * 60 }, db2)

/-- `login_user_json(user_login)` — the JSON `/auth/login-json` endpoint:
like the form login but with the message "Invalid username or password" for
both credential failures, and an additional `user.get("is_active", True)`
check (inactive → 401 "Account is deactivated") before issuing the token. -/
def login_user_json (db : DirState) (username password : String) (now : Nat)
    (cfg : JwtSettings) : Except HErr TokenResponse × DirState :=
  match find_by_username db username with
  | none => (.error ⟨401, "Invalid username or password"⟩, db)
  | some user =>
    if !(verify_password password user.password) then
      (.error ⟨401, "Invalid username or password"⟩, db)
    else if !(user.is_active.getD true) then
      (.error ⟨401, "Account is deactivated"⟩, db)
    else
      let db2 := updateFirst (fun r => r.oid == user.oid) (update_last_login now) db
      (.ok { access_token := create_token (some user.username) now none cfg
             token_type := "bearer"
             expires_in := cfg.jwt_expire_minutes * 60 }, db2)

/-- The authenticated-principal context a protected handler receives. -/
structure Principal where
  username : String
  user_id : String
  is_active : Bool
deriving Repr, DecidableEq

/-- `get_current_user(token)` from `app/auth/dependencies.py`: decode the
token (any codec failure → 401 "Could not validate credentials"), require a
`sub` claim (missing → the same 401), re-read the user by username from the
directory with the password projected out (absent → 404 "User not found"),
reject inactive accounts (401 "Account is deactivated"), otherwise yield the
principal. -/
def get_current_user (token : Token) (now : Nat) (cfg : JwtSettings)
    (db : DirState) : Except HErr Principal :=
  match decode_token token now cfg with
  | none => .error ⟨401, "Could not validate credentials"⟩
  | some payload =>
    match payload.sub with
    | none => .error ⟨401, "Could not validate credentials"⟩
    | some username =>
      match find_by_username db username with
      | none => .error ⟨404, "User not found"⟩
      | some user =>
        if !(user.is_active.getD true) then
          .error ⟨401, "Account is deactivated"⟩
        else
          .ok { username := user.username
                user_id := user.oid
                is_active := user.is_active.getD true }

/-- The `UserUpdate` schema: both fields optional. -/
structure UserUpdate where
  username : Option String
  is_active : Option Bool
deriving Repr, DecidableEq

/-- The `$set` document built by `update_user_by_id`: present fields of the
update, plus `updated_at` always set to now, applied to a document. -/
def applyUserUpdate (upd : UserUpdate) (now : Nat) (r : UserRec) : UserRec :=
  let r1 := match upd.username with
    | some u => { r with username := u }
    | none => r
  let r2 := match upd.is_active with
    | some b => { r1 with is_active := some b }
    | none => r1
  { r2 with updated_at := now }

/-- `UserService.update_user_by_id(user_id, user_update)`: validate the id
(400), check existence (404), `$set` the provided fields plus `updated_at`,
re-read and return the updated document (its projection excludes the
password; the stored record is returned here). -/
def update_user_by_id (db : DirState) (user_id : String) (upd : UserUpdate)
    (now : Nat) : Except HErr UserRec × DirState :=
  if !(validate_object_id user_id) then
    (.error ⟨400, "Invalid user ID format"⟩, db)
  else
    match findById db user_id with
    | none => (.error ⟨404, "User not found"⟩, db)
    | some _ =>
      let db2 := updateFirst (fun r => r.oid == user_id) (applyUserUpdate upd now) db
      match findById db2 user_id with
      | some updated => (.ok updated, db2)
      | none => (.error ⟨500, "Internal server error"⟩, db2)

/-- `UserService.deactivate_user_by_id(user_id)`: validate the id (400),
check existence (404), `$set {is_active: false, updated_at: now}`, then raise
400 "User already deactivated" when `result.modified_count == 0` — which in
MongoDB means the `$set` changed nothing, i.e. the stored document already
had exactly these values. -/
def deactivate_user_by_id (db : DirState) (user_id : String) (now : Nat) :
    Except HErr Unit × DirState :=
  if !(validate_object_id user_id) then
    (.error ⟨400, "Invalid user ID"⟩, db)
  else
    match findById db user_id with
    | none => (.error ⟨404, "User not found"⟩, db)
    | some user =>
      let db2 := updateFirst (fun r => r.oid == user_id)
        (fun r => { r with is_active := some false, updated_at := now }) db
      if { user with is_active := some false, updated_at := now } = user then
        (.error ⟨400, "User already deactivated"⟩, db2)
      else
        (.ok (), db2)

/-- A concrete active user record used by the concrete evaluations below. -/
def aliceActive : UserRec :=
  { oid := "507f1f77bcf86cd799439011"
    username := "alice"
    password := hash_password 7 "Passw0rd"
    created_at := 10
    updated_at := 10
    is_active := some true
    last_login := none
    login_count := 0 }

/-- A deactivated copy of the concrete user record. -/
def aliceInactive : UserRec :=
  { aliceActive with is_active := some false }

/-- The concrete JWT configuration used by the concrete evaluations below. -/
def cfg0 : JwtSettings := ⟨"s3cret", "HS256", 30⟩

/-! # Theorems -/

/-! ## General lemmas -/

theorem string_append_left_cancel {s a b : String} (h : s ++ a = s ++ b) :
    a = b := by
  apply String.ext
  have h2 := congrArg String.data h
  simpa using h2

theorem digestFn_inj {salt : Nat} {p1 p2 : String}
    (h : digestFn salt p1 = digestFn salt p2) : p1 = p2 := by
  unfold digestFn at h
  exact string_append_left_cancel h

theorem find_first_in_middle (p : UserRec → Bool) (pre post : List UserRec)
    (rec : UserRec) (hpre : ∀ r ∈ pre, p r = false) (hrec : p rec = true) :
    List.find? p (pre ++ rec :: post) = some rec := by
  induction pre with
  | nil => simp [List.find?_cons_of_pos, hrec]
  | cons a as ih =>
    have ha : p a = false := hpre a (by simp)
    have has : ∀ r ∈ as, p r = false := fun r hr => hpre r (by simp [hr])
    simpa [List.find?_cons_of_neg, ha] using ih has

theorem updateFirst_in_middle (p : UserRec → Bool) (f : UserRec → UserRec)
    (pre post : List UserRec) (rec : UserRec)
    (hpre : ∀ r ∈ pre, p r = false) (hrec : p rec = true) :
    updateFirst p f (pre ++ rec :: post) = pre ++ f rec :: post := by
  induction pre with
  | nil => simp [updateFirst, hrec]
  | cons a as ih =>
    have ha : p a = false := hpre a (by simp)
    have has : ∀ r ∈ as, p r = false := fun r hr => hpre r (by simp [hr])
    simp [updateFirst, ha, ih has]

/-! ## Claim theorems -/

/-- C1: a token with a valid signature and unexpired lifetime for a username
whose account has since been deactivated still parses successfully in the
Token Codec, yet the Authorization Gate rejects the request with
401 "Account is deactivated". -/
theorem c1_gate_rejects_deactivated (u : String) (cfg : JwtSettings)
    (iat t : Nat) (em : Option Nat) (db : DirState) (user : UserRec)
    (hexp : t ≤ iat + 60 * (em.getD cfg.jwt_expire_minutes))
    (hfind : find_by_username db u = some user)
    (hinactive : user.is_active = some false) :
    decode_token (create_token (some u) iat em cfg) t cfg =
      some (create_token (some u) iat em cfg).claims ∧
    get_current_user (create_token (some u) iat em cfg) t cfg db =
      .error ⟨401, "Account is deactivated"⟩ := by
  have hdec : decode_token (create_token (some u) iat em cfg) t cfg =
      some (create_token (some u) iat em cfg).claims := by
    simp [create_token, decode_token, Nat.not_lt.mpr hexp]
  refine ⟨hdec, ?_⟩
  unfold get_current_user
  rw [hdec]
  simp [create_token, hfind, hinactive]

/-- Witness for C1: a fresh token for the deactivated `"alice"` record. -/
theorem c1_gate_rejects_deactivated_witness :
    decode_token (create_token (some "alice") 20 none cfg0) 30 cfg0 =
      some (create_token (some "alice") 20 none cfg0).claims ∧
    get_current_user (create_token (some "alice") 20 none cfg0) 30 cfg0
        [aliceInactive] =
      .error ⟨401, "Account is deactivated"⟩ :=
  c1_gate_rejects_deactivated "alice" cfg0 20 30 none [aliceInactive]
    aliceInactive (by decide) rfl rfl

/-- C2: on the form login path the wrong-password failure and the
no-such-user failure carry the same status but different messages
("Incorrect username or password" vs "Incorrect username and password"),
so a caller can distinguish the two cases; the JSON path does return one
identical message for both. -/
theorem c2_login_failure_messages_differ :
    (login_user [aliceActive] "alice" "WrongPass1" 20 cfg0).1 =
      .error ⟨401, "Incorrect username or password"⟩ ∧
    (login_user [aliceActive] "bob" "WrongPass1" 20 cfg0).1 =
      .error ⟨401, "Incorrect username and password"⟩ ∧
    "Incorrect username or password" ≠ "Incorrect username and password" ∧
    (login_user_json [aliceActive] "alice" "WrongPass1" 20 cfg0).1 =
      .error ⟨401, "Invalid username or password"⟩ ∧
    (login_user_json [aliceActive] "bob" "WrongPass1" 20 cfg0).1 =
      .error ⟨401, "Invalid username or password"⟩ :=
  ⟨rfl, rfl, by decide, rfl, rfl⟩

/-- C3: for a stored record with `is_active = false` and the correct
password, the JSON login fails with 401 "Account is deactivated" while the
form-based login performs no active-flag check and succeeds, issuing a
token. -/
theorem c3_active_check_asymmetry (db : DirState) (u pw : String) (now : Nat)
    (cfg : JwtSettings) (user : UserRec)
    (hfind : find_by_username db u = some user)
    (hinactive : user.is_active = some false)
    (hpw : verify_password pw user.password = true) :
    (login_user db u pw now cfg).1 =
      .ok { access_token := create_token (some user.username) now none cfg
            token_type := "bearer"
            expires_in := cfg.jwt_expire_minutes * 60 } ∧
    (login_user_json db u pw now cfg).1 =
      .error ⟨401, "Account is deactivated"⟩ := by
  constructor
  · simp [login_user, hfind, hpw]
  · simp [login_user_json, hfind, hpw, hinactive]

/-- Witness for C3 with a concrete deactivated record and its password. -/
theorem c3_active_check_asymmetry_witness :
    (login_user [aliceInactive] "alice" "Passw0rd" 20 cfg0).1 =
      .ok { access_token := create_token (some aliceInactive.username) 20 none cfg0
            token_type := "bearer"
            expires_in := cfg0.jwt_expire_minutes * 60 } ∧
    (login_user_json [aliceInactive] "alice" "Passw0rd" 20 cfg0).1 =
      .error ⟨401, "Account is deactivated"⟩ :=
  c3_active_check_asymmetry [aliceInactive] "alice" "Passw0rd" 20 cfg0
    aliceInactive rfl rfl (by decide)

/-- C4: For every subject string and configured lifetime, parsing a token at
any time strictly before issuance time plus the lifetime succeeds and yields
claims whose subject equals the issued subject unchanged. -/
theorem c4_parse_after_issue (sub : String) (cfg : JwtSettings) (now t : Nat)
    (h : t < now + 60 * cfg.jwt_expire_minutes) :
    decode_token (create_token (some sub) now none cfg) t cfg =
      some { sub := some sub
             exp := now + 60 * cfg.jwt_expire_minutes
             iat := now
             typ := "access_token" } := by
  simp [create_token, decode_token, Nat.not_lt.mpr (Nat.le_of_lt h)]

/-- Witness for C4 at a concrete subject, configuration and time. -/
theorem c4_parse_after_issue_witness :
    (100 : Nat) < 100 + 60 * 30 ∧
      decode_token
          (create_token (some "alice") 100 none ⟨"s3cret", "HS256", 30⟩)
          100 ⟨"s3cret", "HS256", 30⟩ =
        some { sub := some "alice", exp := 100 + 60 * 30, iat := 100,
               typ := "access_token" } :=
  ⟨by decide, c4_parse_after_issue "alice" ⟨"s3cret", "HS256", 30⟩ 100 100 (by decide)⟩

/-- C5: a registration whose username already exists — whether the existence
check sees it, or only the insert does because a concurrent duplicate raced
past the check — fails with the same Conflict response and leaves the
directory exactly as it was, creating no second record. -/
theorem c5_duplicate_registration_conflict (sCheck sInsert : DirState)
    (u pw : String) (salt now : Nat) (newId : String)
    (hdup : (find_by_username sCheck u).isSome = true ∨
            (find_by_username sInsert (pyStrip u)).isSome = true) :
    register_user sCheck sInsert u pw salt now newId =
      (.error ⟨400, "Username already registered"⟩, sInsert) := by
  unfold register_user
  cases hfind : find_by_username sCheck u with
  | some r => rfl
  | none =>
    rcases hdup with hdup | hdup
    · rw [hfind] at hdup
      simp at hdup
    · simp only [insert_one, create_user_document]
      rw [show (sInsert.find? fun r => r.username == pyStrip u) =
            find_by_username sInsert (pyStrip u) from rfl]
      rcases Option.isSome_iff_exists.mp hdup with ⟨r, hr⟩
      rw [hr]
      rfl

/-- Witness for C5: registering `"alice"` again on a directory that already
holds an `"alice"` record. -/
theorem c5_duplicate_registration_conflict_witness :
    register_user [aliceActive] [aliceActive] "alice" "Other1234" 8 20
        "507f1f77bcf86cd799439012" =
      (.error ⟨400, "Username already registered"⟩, [aliceActive]) :=
  c5_duplicate_registration_conflict [aliceActive] [aliceActive] "alice"
    "Other1234" 8 20 "507f1f77bcf86cd799439012" (Or.inl (by rfl))

/-- C6 counterexample: on input `" abc "` the trimmed form `"abc"` passes both
checks, so the claim says the input is accepted, but `validate_username`
rejects it: the source checks the raw value and strips only afterwards. -/
theorem c6_trim_before_checks_counterexample :
    specTrimmedAccepts " abc " = true ∧ (validate_username " abc ").isOk = false := by
  constructor <;> decide

/-- C6 amended: no trimming happens before the checks.  The length check and
the pattern check apply to the raw input, so exactly the inputs whose raw form
passes both checks are accepted, and the accepted value is the input trimmed
afterwards (a no-op except for a single trailing newline admitted by
Python's `$`). -/
theorem c6_checks_apply_to_raw_input (v : String) :
    (validate_username v = Except.ok (pyStrip v) ↔
      (3 ≤ v.length ∧ v.length ≤ 50 ∧ reFullMatchWord v = true)) ∧
    (∀ r, validate_username v = Except.ok r → r = pyStrip v) := by
  unfold validate_username
  split_ifs with h1 h2 h3
  · refine ⟨⟨fun h => by simp at h, fun h => by omega⟩, fun r hr => by simp at hr⟩
  · refine ⟨⟨fun h => by simp at h, fun h => by omega⟩, fun r hr => by simp at hr⟩
  · refine ⟨⟨fun h => by simp at h, fun h => ?_⟩, fun r hr => by simp at hr⟩
    rw [h.2.2] at h3
    simp at h3
  · refine ⟨⟨fun _ => ⟨by omega, by omega, by simpa using h3⟩, fun _ => rfl⟩, ?_⟩
    intro r hr
    exact (Except.ok.inj hr).symm

/-- Witness for C6 amended at the concrete input `"abc"`. -/
theorem c6_checks_apply_to_raw_input_witness :
    validate_username "abc" = Except.ok (pyStrip "abc") ∧ "abc" = pyStrip "abc" :=
  ⟨(c6_checks_apply_to_raw_input "abc").1.mpr (by decide),
   (c6_checks_apply_to_raw_input "abc").2 "abc" (by rfl)⟩

/-- C7 counterexample: deactivating an existing, already-inactive user at a
time that differs from the record's stored `updated_at` succeeds (the `$set`
still changes `updated_at`, so `modified_count` is 1), instead of failing
with the 400 "User already deactivated" error the claim requires. -/
theorem c7_repeat_deactivation_counterexample :
    findById [aliceInactive] "507f1f77bcf86cd799439011" = some aliceInactive ∧
    aliceInactive.is_active = some false ∧
    (deactivate_user_by_id [aliceInactive] "507f1f77bcf86cd799439011" 20).1 =
      .ok () :=
  ⟨rfl, rfl, rfl⟩

/-- C7 amended: on an existing, already-inactive target the operation fails
with 400 "User already deactivated" only when the current time equals the
record's stored `updated_at` (so the `$set` changes nothing); otherwise it
succeeds, refreshing `updated_at`.  In both cases the record remains
inactive. -/
theorem c7_repeat_deactivation (pre post : DirState) (rec : UserRec)
    (user_id : String) (now : Nat)
    (hvalid : validate_object_id user_id = true)
    (hid : rec.oid = user_id)
    (hpre : ∀ r ∈ pre, r.oid ≠ user_id)
    (hinactive : rec.is_active = some false) :
    deactivate_user_by_id (pre ++ rec :: post) user_id now =
      if rec.updated_at = now then
        (.error ⟨400, "User already deactivated"⟩, pre ++ rec :: post)
      else
        (.ok (), pre ++ { rec with is_active := some false, updated_at := now } :: post) := by
  have hp : ∀ r ∈ pre, (r.oid == user_id) = false := fun r hrm => by
    simpa using hpre r hrm
  have hr : (rec.oid == user_id) = true := by simpa using hid
  have hfind := find_first_in_middle (fun r => r.oid == user_id) pre post rec hp hr
  have hupd := updateFirst_in_middle (fun r => r.oid == user_id)
      (fun r => { r with is_active := some false, updated_at := now }) pre post rec hp hr
  simp only [deactivate_user_by_id, hvalid, Bool.not_true, Bool.false_eq_true,
    if_false, findById, hfind, hupd]
  by_cases hts : rec.updated_at = now
  · have hsame : { rec with is_active := some false, updated_at := now } = rec := by
      cases rec
      simp_all
    rw [if_pos hsame, if_pos hts, hsame]
  · have hdiff : ¬({ rec with is_active := some false, updated_at := now } = rec) := by
      intro hcontra
      apply hts
      have := congrArg UserRec.updated_at hcontra
      simpa using this.symm
    rw [if_neg hdiff, if_neg hts]

/-- Witness for C7 amended, in the branch where the times differ. -/
theorem c7_repeat_deactivation_witness :
    deactivate_user_by_id [aliceInactive] "507f1f77bcf86cd799439011" 20 =
      if aliceInactive.updated_at = 20 then
        (.error ⟨400, "User already deactivated"⟩, [aliceInactive])
      else
        (.ok (), [{ aliceInactive with is_active := some false, updated_at := 20 }]) :=
  c7_repeat_deactivation [] [] aliceInactive "507f1f77bcf86cd799439011" 20
    (by decide) rfl (by simp) rfl

/-- C8: configuration loading succeeds in an environment that provides no
token signing secret at all — the token signing secret is not among the
required environment values (only `MONGODB_URI` is), so the process does
start without it, contradicting the claim. -/
theorem c8_startup_succeeds_without_secret :
    settingsInit envMongoOnly =
      Except.ok { mongodb_uri := "mongodb://localhost:27017"
                  database_name := "auth_crud"
                  api_timeout := "30" } ∧
    requiredEnvKeys = ["MONGODB_URI"] ∧
    (settingsInit (fun _ => none)).isOk = false :=
  ⟨rfl, rfl, rfl⟩

/-- C9: verification succeeds on the hash of the same password and fails on
the hash of any other password. -/
theorem c9_hash_verify_roundtrip (salt : Nat) (p p1 p2 : String) (hne : p1 ≠ p2) :
    verify_password p (hash_password salt p) = true ∧
      verify_password p1 (hash_password salt p2) = false := by
  constructor
  · simp [verify_password, hash_password]
  · simp only [verify_password, hash_password, beq_eq_false_iff_ne, ne_eq]
    intro h
    exact hne (digestFn_inj h)

/-- Witness for C9 at concrete passwords. -/
theorem c9_hash_verify_roundtrip_witness :
    verify_password "Passw0rd" (hash_password 7 "Passw0rd") = true ∧
      verify_password "Other1234" (hash_password 7 "Passw0rd") = false :=
  c9_hash_verify_roundtrip 7 "Passw0rd" "Other1234" "Passw0rd" (by decide)

/-- C10: a PUT with both optional fields omitted still succeeds and rewrites
exactly the target record's `updated_at` to the current time; every other
field and every other record is unchanged. -/
theorem c10_empty_update_only_updated_at (pre post : DirState) (rec : UserRec)
    (user_id : String) (now : Nat)
    (hvalid : validate_object_id user_id = true)
    (hid : rec.oid = user_id)
    (hpre : ∀ r ∈ pre, r.oid ≠ user_id) :
    update_user_by_id (pre ++ rec :: post) user_id ⟨none, none⟩ now =
      (.ok { rec with updated_at := now },
       pre ++ { rec with updated_at := now } :: post) := by
  have hp : ∀ r ∈ pre, (r.oid == user_id) = false := fun r hrm => by
    simpa using hpre r hrm
  have hr : (rec.oid == user_id) = true := by simpa using hid
  have hfind := find_first_in_middle (fun r => r.oid == user_id) pre post rec hp hr
  have hupd := updateFirst_in_middle (fun r => r.oid == user_id)
      (applyUserUpdate ⟨none, none⟩ now) pre post rec hp hr
  have happly : applyUserUpdate ⟨none, none⟩ now rec = { rec with updated_at := now } := rfl
  have hfind2 := find_first_in_middle (fun r => r.oid == user_id) pre post
      { rec with updated_at := now } hp (by simpa using hid)
  simp only [update_user_by_id, hvalid, Bool.not_true, Bool.false_eq_true,
    if_false, findById, hfind, hupd, happly, hfind2]

/-- Witness for C10: an empty update of the concrete active record. -/
theorem c10_empty_update_only_updated_at_witness :
    update_user_by_id [aliceActive] "507f1f77bcf86cd799439011" ⟨none, none⟩ 20 =
      (.ok { aliceActive with updated_at := 20 },
       [{ aliceActive with updated_at := 20 }]) :=
  c10_empty_update_only_updated_at [] [] aliceActive "507f1f77bcf86cd799439011"
    20 (by decide) rfl (by simp)
